import Mathlib

/-!
Verification of the `parallel-bus` crate (`src/lib.rs`): a fixed-width
parallel digital bus with a handle that switches the bus between input and
output direction at runtime.

Shallow embedding conventions:
* Trait method tables (`InputBus`, `OutputBus`, `IoBus`) become structures of
  functions.  The hardware side effect a conversion, read or write may have is
  threaded through an explicit state type `S` (each effectful `fn` of type
  `A -> Result<B, E>` becomes `A → S → Except E B × S`).
* `GenericArray<PinState, BusWidth>` becomes `PinVector w`, a list of pin
  states whose length is fixed to `w` by the type.
* A Rust panic (`Option::unwrap` on `None`, the catch-all `panic!()` match
  arm) is modelled by an `Option` result: `none` is a panic.
* Compile-time bus widths (`ArrayLength` type-level numbers) are modelled by
  `Nat`; the marker trait `Same<T>` becomes a binary relation on widths.
-/

namespace ParallelBusLib

/-- Models `embedded_hal::digital::v2::PinState`: the two-valued state of one
digital pin. -/
inductive PinState : Type where
  | low : PinState
  | high : PinState
  deriving DecidableEq, Repr

/-- Models `GenericArray<PinState, BusWidth>`: an ordered pin-state vector
whose length equals the bus width `w` by construction (type-level guarantee,
no runtime check). -/
structure PinVector (w : Nat) : Type where
  states : List PinState
  length_eq : states.length = w

/-- Models the marker trait `Same<T>` (`pub trait Same<T> {}`) over bus
widths.  The source provides exactly one instance, the blanket reflexive one
`impl<T> Same<T> for T {}`, so the relation has exactly one introduction
rule. -/
inductive Same : Nat → Nat → Prop where
  | refl (a : Nat) : Same a a

/-- Models the `where`-clause bundle every bus pairing in the source must
satisfy (`<TInput as ParallelBus>::BusWidth: Same<<TOutput as
ParallelBus>::BusWidth>` and its converse, required by `DirectionErasedBus`
and `BidirectionBus`).  A value of this structure exists exactly when an
input width and an output width may be paired. -/
structure PairedWidths where
  inputWidth : Nat
  outputWidth : Nat
  input_same_output : Same inputWidth outputWidth
  output_same_input : Same outputWidth inputWidth

/-- Models the `InputBus` trait: `fn read_bus(&self) ->
Result<GenericArray<PinState, Self::BusWidth>, Self::Error>`.  `T` is the
implementing bus type, `E` its error type, `w` its `BusWidth`. -/
structure InputBus (T E S : Type) (w : Nat) where
  read_bus : T → S → Except E (PinVector w) × S

/-- Models the `OutputBus` trait: `fn write_bus(&mut self, states:
GenericArray<PinState, Self::BusWidth>) -> Result<(), Self::Error>`. -/
structure OutputBus (T E S : Type) (w : Nat) where
  write_bus : T → PinVector w → S → Except E Unit × S

/-- Models the `IoBus<TInput, TOutput>` trait for a carrier `T`: two
consuming, fallible direction conversions with implementor-chosen error
types `EI` (`IntoInputError`) and `EO` (`IntoOutputError`). -/
structure IoBus (T I O EI EO S : Type) where
  into_input_bus : T → S → Except EI I × S
  into_output_bus : T → S → Except EO O × S

/-- Models `enum DirectionErasedBus<TInput, TOutput> { InputBus(TInput),
OutputBus(TOutput) }`. -/
inductive DirectionErasedBus (I O : Type) : Type where
  | InputBus : I → DirectionErasedBus I O
  | OutputBus : O → DirectionErasedBus I O

variable {I O EII EIO EOI EOO S : Type}

/-- Models `into_input_bus` of `impl IoBus for DirectionErasedBus`:
`match self { InputBus(bus) => Ok(bus), OutputBus(bus) => bus.into_input_bus() }`.
`dOut` is the `IoBus` instance of the held output bus type `TOutput` (whose
`IntoInputError` `EOI` is the error type of the impl). -/
def DirectionErasedBus.into_input_bus (dOut : IoBus O I O EOI EOO S) :
    DirectionErasedBus I O → S → Except EOI I × S
  | .InputBus bus, s => (.ok bus, s)
  | .OutputBus bus, s => dOut.into_input_bus bus s

/-- Models `into_output_bus` of `impl IoBus for DirectionErasedBus`:
`match self { InputBus(bus) => bus.into_output_bus(), OutputBus(bus) => Ok(bus) }`.
`dIn` is the `IoBus` instance of the held input bus type `TInput` (whose
`IntoOutputError` `EIO` is the error type of the impl). -/
def DirectionErasedBus.into_output_bus (dIn : IoBus I I O EII EIO S) :
    DirectionErasedBus I O → S → Except EIO O × S
  | .InputBus bus, s => dIn.into_output_bus bus s
  | .OutputBus bus, s => (.ok bus, s)

/-- Models `pub struct BidirectionBus(Option<DirectionErasedBus<TInput,
TOutput>>)`; `slot` is the tuple field `.0`. -/
structure BidirectionBus (I O : Type) where
  slot : Option (DirectionErasedBus I O)

/-- Models `impl From<DirectionErasedBus> for BidirectionBus`:
`Self(Some(value))`. -/
def BidirectionBus.ofDirectionErasedBus (u : DirectionErasedBus I O) :
    BidirectionBus I O :=
  ⟨some u⟩

/-- Models `impl From<BidirectionBus> for DirectionErasedBus`:
`value.0.unwrap()`.  `none` is the `unwrap` panic on an empty slot. -/
def BidirectionBus.intoDirectionErasedBus (b : BidirectionBus I O) :
    Option (DirectionErasedBus I O) :=
  match b.slot with
  | none => none
  | some u => some u

/-- Models `into_input_bus` of `impl IoBus for BidirectionBus`:
`self.0.unwrap().into_input_bus()`.  `none` is the `unwrap` panic. -/
def BidirectionBus.into_input_bus (dOut : IoBus O I O EOI EOO S)
    (b : BidirectionBus I O) (s : S) : Option (Except EOI I × S) :=
  match b.slot with
  | none => none
  | some u => some (u.into_input_bus dOut s)

/-- Models `into_output_bus` of `impl IoBus for BidirectionBus`:
`self.0.unwrap().into_output_bus()`.  `none` is the `unwrap` panic. -/
def BidirectionBus.into_output_bus (dIn : IoBus I I O EII EIO S)
    (b : BidirectionBus I O) (s : S) : Option (Except EIO O × S) :=
  match b.slot with
  | none => none
  | some u => some (u.into_output_bus dIn s)

/-- Models `switch_to_input_bus` of `impl SwitchableBus for BidirectionBus`:
`let bus = self.0.take().unwrap();` (panic when the slot is empty; the slot
is `None` from here on), `self.0 = Some(DirectionErasedBus::InputBus(
bus.into_input_bus()?));` (the `?` returns the error with the slot still
`None`), then `match self.0.as_ref().unwrap() { InputBus(bus) => Ok(bus),
_ => panic!() }`.  The returned `&TInput` is modelled by the stored value;
the result carries the handle after the call and the hardware state; `none`
is a panic. -/
def BidirectionBus.switch_to_input_bus (dOut : IoBus O I O EOI EOO S)
    (b : BidirectionBus I O) (s : S) :
    Option (Except EOI I × BidirectionBus I O × S) :=
  match b.slot with
  | none => none
  | some bus =>
    match bus.into_input_bus dOut s with
    | (.error e, s1) => some (.error e, ⟨none⟩, s1)
    | (.ok newBus, s1) =>
      let slot1 : Option (DirectionErasedBus I O) := some (.InputBus newBus)
      match slot1 with
      | some (.InputBus stored) => some (.ok stored, ⟨slot1⟩, s1)
      | some (.OutputBus _) => none
      | none => none

/-- Models `switch_to_output_bus` of `impl SwitchableBus for BidirectionBus`,
symmetric to `switch_to_input_bus`; the returned `&mut TOutput` is modelled
by the stored value. -/
def BidirectionBus.switch_to_output_bus (dIn : IoBus I I O EII EIO S)
    (b : BidirectionBus I O) (s : S) :
    Option (Except EIO O × BidirectionBus I O × S) :=
  match b.slot with
  | none => none
  | some bus =>
    match bus.into_output_bus dIn s with
    | (.error e, s1) => some (.error e, ⟨none⟩, s1)
    | (.ok newBus, s1) =>
      let slot1 : Option (DirectionErasedBus I O) := some (.OutputBus newBus)
      match slot1 with
      | some (.OutputBus stored) => some (.ok stored, ⟨slot1⟩, s1)
      | some (.InputBus _) => none
      | none => none

/-- A concrete output-type fake bus (carrier `Nat`) whose `into_input_bus`
always fails with sentinel error `7`; the state counts conversion attempts. -/
def failingOutputFake : IoBus Nat Nat Nat Nat Nat Nat where
  into_input_bus := fun _ s => (.error 7, s + 1)
  into_output_bus := fun o s => (.ok o, s + 1)

/-- A concrete input-type fake bus whose `into_output_bus` always fails with
sentinel error `9`; the state counts conversion attempts. -/
def failingInputFake : IoBus Nat Nat Nat Nat Nat Nat where
  into_input_bus := fun i s => (.ok i, s + 1)
  into_output_bus := fun _ s => (.error 9, s + 1)

/-- A concrete input-type fake bus whose conversions always succeed, adding
`100` on a direction change; the state counts conversions performed. -/
def countingInputFake : IoBus Nat Nat Nat Nat Nat Nat where
  into_input_bus := fun i s => (.ok i, s + 1)
  into_output_bus := fun i s => (.ok (i + 100), s + 1)

/-- A concrete output-type fake bus whose conversions always succeed, adding
`200` on a direction change; the state counts conversions performed. -/
def countingOutputFake : IoBus Nat Nat Nat Nat Nat Nat where
  into_input_bus := fun o s => (.ok (o + 200), s + 1)
  into_output_bus := fun o s => (.ok o, s + 1)

/-- A concrete fake `OutputBus` of width 2 whose writes always succeed; the
state counts writes performed. -/
def alwaysOkWriteFake : OutputBus Nat Nat Nat 2 where
  write_bus := fun _ _ s => (.ok (), s + 1)

/-- A concrete fake `InputBus` of width 2 returning a fixed two-pin vector. -/
def fixedReadFake : InputBus Nat Nat Nat 2 where
  read_bus := fun _ s => (.ok ⟨[PinState.low, PinState.high], rfl⟩, s)

/-! Helper lemmas about the switch operations, shared by the claim proofs. -/

/-- `Same` only relates a width to itself. -/
theorem Same.eq {a b : Nat} (h : Same a b) : a = b := by
  cases h
  rfl

/-- A switch on a handle whose slot holds `u`, with the union conversion
succeeding, stores the input variant and returns the stored bus. -/
theorem switch_in_some_ok (dOut : IoBus O I O EOI EOO S)
    (u : DirectionErasedBus I O) (v : I) (s s1 : S)
    (h : u.into_input_bus dOut s = (.ok v, s1)) :
    BidirectionBus.switch_to_input_bus dOut ⟨some u⟩ s =
      some (.ok v, ⟨some (.InputBus v)⟩, s1) := by
  simp [BidirectionBus.switch_to_input_bus, h]

/-- A switch on a handle whose slot holds `u`, with the union conversion
failing, returns that error and leaves the slot empty. -/
theorem switch_in_some_error (dOut : IoBus O I O EOI EOO S)
    (u : DirectionErasedBus I O) (e : EOI) (s s1 : S)
    (h : u.into_input_bus dOut s = (.error e, s1)) :
    BidirectionBus.switch_to_input_bus dOut ⟨some u⟩ s =
      some (.error e, ⟨none⟩, s1) := by
  simp [BidirectionBus.switch_to_input_bus, h]

/-- Output-direction analogue of `switch_in_some_ok`. -/
theorem switch_out_some_ok (dIn : IoBus I I O EII EIO S)
    (u : DirectionErasedBus I O) (w : O) (s s1 : S)
    (h : u.into_output_bus dIn s = (.ok w, s1)) :
    BidirectionBus.switch_to_output_bus dIn ⟨some u⟩ s =
      some (.ok w, ⟨some (.OutputBus w)⟩, s1) := by
  simp [BidirectionBus.switch_to_output_bus, h]

/-- Output-direction analogue of `switch_in_some_error`. -/
theorem switch_out_some_error (dIn : IoBus I I O EII EIO S)
    (u : DirectionErasedBus I O) (e : EIO) (s s1 : S)
    (h : u.into_output_bus dIn s = (.error e, s1)) :
    BidirectionBus.switch_to_output_bus dIn ⟨some u⟩ s =
      some (.error e, ⟨none⟩, s1) := by
  simp [BidirectionBus.switch_to_output_bus, h]

/-- Inversion: everything a returning (non-panicking) `switch_to_input_bus`
call tells about its pieces. -/
theorem switch_in_inv (dOut : IoBus O I O EOI EOO S)
    (b b1 : BidirectionBus I O) (s s1 : S) (r : Except EOI I)
    (h : BidirectionBus.switch_to_input_bus dOut b s = some (r, b1, s1)) :
    ∃ u, b.slot = some u ∧
      ((∃ v, r = .ok v ∧ u.into_input_bus dOut s = (.ok v, s1) ∧
          b1 = ⟨some (.InputBus v)⟩) ∨
        (∃ e, r = .error e ∧ u.into_input_bus dOut s = (.error e, s1) ∧
          b1 = ⟨none⟩)) := by
  obtain ⟨slot⟩ := b
  cases slot with
  | none => exact absurd h (by simp [BidirectionBus.switch_to_input_bus])
  | some u =>
    refine ⟨u, rfl, ?_⟩
    rcases hc : u.into_input_bus dOut s with ⟨res, s2⟩
    cases res with
    | ok v =>
      rw [switch_in_some_ok dOut u v s s2 hc] at h
      simp only [Option.some.injEq, Prod.mk.injEq] at h
      obtain ⟨h1, h2, h3⟩ := h
      subst h3
      exact Or.inl ⟨v, h1.symm, rfl, h2.symm⟩
    | error e =>
      rw [switch_in_some_error dOut u e s s2 hc] at h
      simp only [Option.some.injEq, Prod.mk.injEq] at h
      obtain ⟨h1, h2, h3⟩ := h
      subst h3
      exact Or.inr ⟨e, h1.symm, rfl, h2.symm⟩

/-- Inversion: everything a returning (non-panicking) `switch_to_output_bus`
call tells about its pieces. -/
theorem switch_out_inv (dIn : IoBus I I O EII EIO S)
    (b b1 : BidirectionBus I O) (s s1 : S) (r : Except EIO O)
    (h : BidirectionBus.switch_to_output_bus dIn b s = some (r, b1, s1)) :
    ∃ u, b.slot = some u ∧
      ((∃ w, r = .ok w ∧ u.into_output_bus dIn s = (.ok w, s1) ∧
          b1 = ⟨some (.OutputBus w)⟩) ∨
        (∃ e, r = .error e ∧ u.into_output_bus dIn s = (.error e, s1) ∧
          b1 = ⟨none⟩)) := by
  obtain ⟨slot⟩ := b
  cases slot with
  | none => exact absurd h (by simp [BidirectionBus.switch_to_output_bus])
  | some u =>
    refine ⟨u, rfl, ?_⟩
    rcases hc : u.into_output_bus dIn s with ⟨res, s2⟩
    cases res with
    | ok w =>
      rw [switch_out_some_ok dIn u w s s2 hc] at h
      simp only [Option.some.injEq, Prod.mk.injEq] at h
      obtain ⟨h1, h2, h3⟩ := h
      subst h3
      exact Or.inl ⟨w, h1.symm, rfl, h2.symm⟩
    | error e =>
      rw [switch_out_some_error dIn u e s s2 hc] at h
      simp only [Option.some.injEq, Prod.mk.injEq] at h
      obtain ⟨h1, h2, h3⟩ := h
      subst h3
      exact Or.inr ⟨e, h1.symm, rfl, h2.symm⟩

/-! The claims. -/

/-- Claim C1 (the code violates the claimed never-empty invariant): with the
slot holding an output bus whose `into_input_bus` fails with sentinel error
`7`, the failed `switch_to_input_bus` returns the error but leaves the slot
empty (`none` — the `take()` is never undone on the error path), and the next
switch call panics (`none`) instead of proceeding against a stored value. -/
theorem never_empty_invariant_fails :
    BidirectionBus.switch_to_input_bus failingOutputFake
        ⟨some (.OutputBus 5)⟩ 0 =
      some (.error 7, (⟨none⟩ : BidirectionBus Nat Nat), 1) ∧
    BidirectionBus.switch_to_input_bus failingOutputFake
      (⟨none⟩ : BidirectionBus Nat Nat) 1 = none :=
  ⟨rfl, rfl⟩

/-- Claim C2: error propagation is verbatim.  When the held output bus fails
to convert with error `e`, `switch_to_input_bus` returns exactly `e` (a value
of the held bus type's own `IntoInputError` type `EOI`), and symmetrically
for `switch_to_output_bus`; no wrapping or alteration happens. -/
theorem switch_error_propagation_verbatim
    (dIn : IoBus I I O EII EIO S) (dOut : IoBus O I O EOI EOO S)
    (o : O) (i : I) (s t s1 t1 : S) (e : EOI) (e2 : EIO)
    (hin : dOut.into_input_bus o s = (.error e, s1))
    (hout : dIn.into_output_bus i t = (.error e2, t1)) :
    BidirectionBus.switch_to_input_bus dOut ⟨some (.OutputBus o)⟩ s =
      some (.error e, ⟨none⟩, s1) ∧
    BidirectionBus.switch_to_output_bus dIn ⟨some (.InputBus i)⟩ t =
      some (.error e2, ⟨none⟩, t1) :=
  ⟨switch_in_some_error dOut (.OutputBus o) e s s1 hin,
    switch_out_some_error dIn (.InputBus i) e2 t t1 hout⟩

/-- Witness for claim C2 at concrete fakes with sentinel errors 7 and 9. -/
theorem switch_error_propagation_verbatim_witness :
    BidirectionBus.switch_to_input_bus failingOutputFake ⟨some (.OutputBus 3)⟩ 0 =
      some (.error 7, ⟨none⟩, 1) ∧
    BidirectionBus.switch_to_output_bus failingInputFake ⟨some (.InputBus 4)⟩ 0 =
      some (.error 9, ⟨none⟩, 1) :=
  switch_error_propagation_verbatim failingInputFake failingOutputFake
    3 4 0 0 1 1 7 9 rfl rfl

/-- Claim C3: idempotent short-circuit.  The union conversion on a value
already in the target direction returns the held bus at once with the
hardware state untouched, and after a successful `switch_to_input_bus` a
second switch in the same direction returns `Ok` of the same value, changes
nothing, and its result does not depend on the conversion table at all (so
the underlying conversion is performed at most once across the two calls). -/
theorem idempotent_short_circuit
    (dIn : IoBus I I O EII EIO S) (dOut : IoBus O I O EOI EOO S)
    (bi : I) (bo : O) (t : S)
    (b b1 : BidirectionBus I O) (v : I) (s s1 : S)
    (h : BidirectionBus.switch_to_input_bus dOut b s = some (.ok v, b1, s1)) :
    DirectionErasedBus.into_input_bus dOut (.InputBus bi) t = (.ok bi, t) ∧
    DirectionErasedBus.into_output_bus dIn (.OutputBus bo) t = (.ok bo, t) ∧
    ∀ dOut2 : IoBus O I O EOI EOO S,
      BidirectionBus.switch_to_input_bus dOut2 b1 s1 = some (.ok v, b1, s1) := by
  refine ⟨rfl, rfl, ?_⟩
  obtain ⟨u, hslot, hcase⟩ := switch_in_inv dOut b b1 s s1 _ h
  rcases hcase with ⟨w, hw, hconv, hb1⟩ | ⟨e, he, _, _⟩
  · injection hw with hvw
    subst hvw
    subst hb1
    intro dOut2
    exact switch_in_some_ok dOut2 (.InputBus v) v s1 s1 rfl
  · exact absurd he (by simp)

/-- Witness for claim C3: two consecutive input switches on a counting fake
bus, the second performed with a conversion table that always fails, still
returning `Ok` of the same value. -/
theorem idempotent_short_circuit_witness :
    DirectionErasedBus.into_input_bus countingOutputFake (.InputBus 1) 5 =
      (.ok 1, 5) ∧
    DirectionErasedBus.into_output_bus countingInputFake (.OutputBus 2) 5 =
      (.ok 2, 5) ∧
    ∀ dOut2 : IoBus Nat Nat Nat Nat Nat Nat,
      BidirectionBus.switch_to_input_bus dOut2 ⟨some (.InputBus 205)⟩ 1 =
        some (.ok 205, ⟨some (.InputBus 205)⟩, 1) :=
  idempotent_short_circuit countingInputFake countingOutputFake 1 2 5
    ⟨some (.OutputBus 5)⟩ ⟨some (.InputBus 205)⟩ 205 0 1 rfl

/-- Claim C4: successful-switch postcondition.  When the union held in the
slot converts successfully to input bus `v`, `switch_to_input_bus` stores
`DirectionErasedBus.InputBus v` in the slot and returns `Ok` of that stored
value; symmetrically for `switch_to_output_bus`. -/
theorem successful_switch_postcondition
    (dIn : IoBus I I O EII EIO S) (dOut : IoBus O I O EOI EOO S)
    (u1 u2 : DirectionErasedBus I O) (v : I) (w : O) (s t s1 t1 : S)
    (h1 : u1.into_input_bus dOut s = (.ok v, s1))
    (h2 : u2.into_output_bus dIn t = (.ok w, t1)) :
    BidirectionBus.switch_to_input_bus dOut ⟨some u1⟩ s =
      some (.ok v, ⟨some (.InputBus v)⟩, s1) ∧
    BidirectionBus.switch_to_output_bus dIn ⟨some u2⟩ t =
      some (.ok w, ⟨some (.OutputBus w)⟩, t1) :=
  ⟨switch_in_some_ok dOut u1 v s s1 h1, switch_out_some_ok dIn u2 w t t1 h2⟩

/-- Witness for claim C4 at concrete counting fakes. -/
theorem successful_switch_postcondition_witness :
    BidirectionBus.switch_to_input_bus countingOutputFake ⟨some (.OutputBus 5)⟩ 0 =
      some (.ok 205, ⟨some (.InputBus 205)⟩, 1) ∧
    BidirectionBus.switch_to_output_bus countingInputFake ⟨some (.InputBus 4)⟩ 0 =
      some (.ok 104, ⟨some (.OutputBus 104)⟩, 1) :=
  successful_switch_postcondition countingInputFake countingOutputFake
    (.OutputBus 5) (.InputBus 4) 205 104 0 0 1 1 rfl rfl

/-- Claim C5: `DirectionErasedBus` is a closed two-state union — every value
is the input variant or the output variant, the variants are distinct, and
each conversion reports failure only through its `Except` result (its outcome
is always `ok` with a bus or `error` with an error value; there is no failure
state of the union). -/
theorem closed_two_state_union
    (u : DirectionErasedBus I O) (dIn : IoBus I I O EII EIO S)
    (dOut : IoBus O I O EOI EOO S) (s : S) :
    ((∃ b, u = DirectionErasedBus.InputBus b) ∨
      (∃ b, u = DirectionErasedBus.OutputBus b)) ∧
    (∀ (bi : I) (bo : O),
      (DirectionErasedBus.InputBus bi : DirectionErasedBus I O) ≠
        DirectionErasedBus.OutputBus bo) ∧
    ((∃ v s1, u.into_input_bus dOut s = (.ok v, s1)) ∨
      (∃ e s1, u.into_input_bus dOut s = (.error e, s1))) ∧
    ((∃ w s1, u.into_output_bus dIn s = (.ok w, s1)) ∨
      (∃ e s1, u.into_output_bus dIn s = (.error e, s1))) := by
  refine ⟨?_, ?_, ?_, ?_⟩
  · cases u with
    | InputBus b => exact Or.inl ⟨b, rfl⟩
    | OutputBus b => exact Or.inr ⟨b, rfl⟩
  · intro bi bo hc
    exact DirectionErasedBus.noConfusion hc
  · rcases hconv : u.into_input_bus dOut s with ⟨res, s1⟩
    cases res with
    | ok v => exact Or.inl ⟨v, s1, rfl⟩
    | error e => exact Or.inr ⟨e, s1, rfl⟩
  · rcases hconv : u.into_output_bus dIn s with ⟨res, s1⟩
    cases res with
    | ok w => exact Or.inl ⟨w, s1, rfl⟩
    | error e => exact Or.inr ⟨e, s1, rfl⟩

/-- Claim C6: round trip.  For a bus pair whose conversions always succeed,
switching to output, then input, then output returns `Ok` three times and
leaves the handle holding the output variant, on which a write (with a write
operation that always succeeds) then succeeds. -/
theorem round_trip_out_in_out {EW : Type} {wd : Nat}
    (dIn : IoBus I I O EII EIO S) (dOut : IoBus O I O EOI EOO S)
    (wBus : OutputBus O EW S wd)
    (hIn : ∀ x s, ∃ v s1, dIn.into_output_bus x s = (.ok v, s1))
    (hOut : ∀ x s, ∃ v s1, dOut.into_input_bus x s = (.ok v, s1))
    (hW : ∀ x pv s, ∃ s1, wBus.write_bus x pv s = (.ok (), s1))
    (u : DirectionErasedBus I O) (s0 : S) :
    ∃ (o1 : O) (s1 : S) (i2 : I) (s2 : S) (o3 : O) (s3 : S),
      BidirectionBus.switch_to_output_bus dIn ⟨some u⟩ s0 =
        some (.ok o1, ⟨some (.OutputBus o1)⟩, s1) ∧
      BidirectionBus.switch_to_input_bus dOut ⟨some (.OutputBus o1)⟩ s1 =
        some (.ok i2, ⟨some (.InputBus i2)⟩, s2) ∧
      BidirectionBus.switch_to_output_bus dIn ⟨some (.InputBus i2)⟩ s2 =
        some (.ok o3, ⟨some (.OutputBus o3)⟩, s3) ∧
      ∀ pv : PinVector wd, ∃ s4, wBus.write_bus o3 pv s3 = (.ok (), s4) := by
  obtain ⟨o1, s1, h1⟩ : ∃ o1 s1, u.into_output_bus dIn s0 = (.ok o1, s1) := by
    cases u with
    | InputBus i => exact hIn i s0
    | OutputBus o => exact ⟨o, s0, rfl⟩
  obtain ⟨i2, s2, h2⟩ := hOut o1 s1
  obtain ⟨o3, s3, h3⟩ := hIn i2 s2
  exact ⟨o1, s1, i2, s2, o3, s3,
    switch_out_some_ok dIn u o1 s0 s1 h1,
    switch_in_some_ok dOut (.OutputBus o1) i2 s1 s2 h2,
    switch_out_some_ok dIn (.InputBus i2) o3 s2 s3 h3,
    fun pv => hW o3 pv s3⟩

/-- Witness for claim C6 at concrete counting fakes of width 2. -/
theorem round_trip_out_in_out_witness :
    ∃ (o1 : Nat) (s1 : Nat) (i2 : Nat) (s2 : Nat) (o3 : Nat) (s3 : Nat),
      BidirectionBus.switch_to_output_bus countingInputFake
          ⟨some (.InputBus 1)⟩ 0 =
        some (.ok o1, ⟨some (.OutputBus o1)⟩, s1) ∧
      BidirectionBus.switch_to_input_bus countingOutputFake
          ⟨some (.OutputBus o1)⟩ s1 =
        some (.ok i2, ⟨some (.InputBus i2)⟩, s2) ∧
      BidirectionBus.switch_to_output_bus countingInputFake
          ⟨some (.InputBus i2)⟩ s2 =
        some (.ok o3, ⟨some (.OutputBus o3)⟩, s3) ∧
      ∀ pv : PinVector 2, ∃ s4, alwaysOkWriteFake.write_bus o3 pv s3 =
        (.ok (), s4) :=
  round_trip_out_in_out countingInputFake countingOutputFake alwaysOkWriteFake
    (fun x s => ⟨x + 100, s + 1, rfl⟩) (fun x s => ⟨x + 200, s + 1, rfl⟩)
    (fun _ _ s => ⟨s + 1, rfl⟩) (.InputBus 1) 0

/-- Claim C7: width contract.  `Same` holds exactly for equal widths (its
only introduction rule is the reflexive one), so the `where`-clause bundle
`PairedWidths` required by `DirectionErasedBus` and `BidirectionBus` forces
the two widths to coincide: no pairing with mismatched widths exists. -/
theorem width_contract_same_reflexive_only :
    (∀ a b : Nat, Same a b ↔ a = b) ∧
    (∀ p : PairedWidths, p.inputWidth = p.outputWidth) ∧
    (∀ a b : Nat, a ≠ b → ∀ p : PairedWidths,
      ¬(p.inputWidth = a ∧ p.outputWidth = b)) := by
  refine ⟨fun a b => ⟨Same.eq, ?_⟩, fun p => Same.eq p.input_same_output, ?_⟩
  · rintro rfl
    exact Same.refl a
  · rintro a b hne p ⟨rfl, rfl⟩
    exact hne (Same.eq p.input_same_output)

/-- Claim C8: a failed switch poisons the handle.  Whenever a switch call
returns an error, the handle it leaves behind has an empty slot, and every
subsequent operation that unwraps the slot — either switch, either `IoBus`
conversion, or the `From` conversion back to `DirectionErasedBus` — panics
(`none`) rather than returning a `Result`. -/
theorem failed_switch_poisons_handle
    (dIn : IoBus I I O EII EIO S) (dOut : IoBus O I O EOI EOO S)
    (b b1 : BidirectionBus I O) (s s1 : S) (e : EOI) (e2 : EIO)
    (h : BidirectionBus.switch_to_input_bus dOut b s = some (.error e, b1, s1) ∨
      BidirectionBus.switch_to_output_bus dIn b s = some (.error e2, b1, s1)) :
    b1.slot = none ∧
    (∀ (d : IoBus O I O EOI EOO S) (t : S),
      BidirectionBus.switch_to_input_bus d b1 t = none) ∧
    (∀ (d : IoBus I I O EII EIO S) (t : S),
      BidirectionBus.switch_to_output_bus d b1 t = none) ∧
    (∀ (d : IoBus O I O EOI EOO S) (t : S),
      BidirectionBus.into_input_bus d b1 t = none) ∧
    (∀ (d : IoBus I I O EII EIO S) (t : S),
      BidirectionBus.into_output_bus d b1 t = none) ∧
    BidirectionBus.intoDirectionErasedBus b1 = none := by
  have hslot : b1 = ⟨none⟩ := by
    rcases h with h | h
    · obtain ⟨u, _, hcase⟩ := switch_in_inv dOut b b1 s s1 _ h
      rcases hcase with ⟨v, hv, _, _⟩ | ⟨e3, _, _, hb1⟩
      · exact absurd hv (by simp)
      · exact hb1
    · obtain ⟨u, _, hcase⟩ := switch_out_inv dIn b b1 s s1 _ h
      rcases hcase with ⟨w, hw, _, _⟩ | ⟨e3, _, _, hb1⟩
      · exact absurd hw (by simp)
      · exact hb1
  subst hslot
  exact ⟨rfl, fun _ _ => rfl, fun _ _ => rfl, fun _ _ => rfl, fun _ _ => rfl,
    rfl⟩

/-- Witness for claim C8: a concrete failed input switch, after which every
slot-unwrapping operation panics. -/
theorem failed_switch_poisons_handle_witness :
    (⟨none⟩ : BidirectionBus Nat Nat).slot = none ∧
    (∀ (d : IoBus Nat Nat Nat Nat Nat Nat) (t : Nat),
      BidirectionBus.switch_to_input_bus d ⟨none⟩ t = none) ∧
    (∀ (d : IoBus Nat Nat Nat Nat Nat Nat) (t : Nat),
      BidirectionBus.switch_to_output_bus d ⟨none⟩ t = none) ∧
    (∀ (d : IoBus Nat Nat Nat Nat Nat Nat) (t : Nat),
      BidirectionBus.into_input_bus d ⟨none⟩ t = none) ∧
    (∀ (d : IoBus Nat Nat Nat Nat Nat Nat) (t : Nat),
      BidirectionBus.into_output_bus d ⟨none⟩ t = none) ∧
    BidirectionBus.intoDirectionErasedBus (⟨none⟩ : BidirectionBus Nat Nat) =
      none :=
  failed_switch_poisons_handle failingInputFake failingOutputFake
    ⟨some (.OutputBus 5)⟩ ⟨none⟩ 0 1 7 0 (Or.inl rfl)

/-- Claim C9: success-path panic freedom.  Starting from a handle whose slot
holds a union value, a switch whose conversion succeeds hits no `unwrap`
panic and never reaches the catch-all `panic!()` arm (every panic is `none`
in the model, and the call returns `some`). -/
theorem success_path_panic_free
    (dIn : IoBus I I O EII EIO S) (dOut : IoBus O I O EOI EOO S)
    (u1 u2 : DirectionErasedBus I O) (v : I) (w : O) (s t s1 t1 : S)
    (h1 : u1.into_input_bus dOut s = (.ok v, s1))
    (h2 : u2.into_output_bus dIn t = (.ok w, t1)) :
    (BidirectionBus.switch_to_input_bus dOut ⟨some u1⟩ s).isSome = true ∧
    (BidirectionBus.switch_to_output_bus dIn ⟨some u2⟩ t).isSome = true := by
  rw [switch_in_some_ok dOut u1 v s s1 h1, switch_out_some_ok dIn u2 w t t1 h2]
  exact ⟨rfl, rfl⟩

/-- Witness for claim C9 at concrete counting fakes. -/
theorem success_path_panic_free_witness :
    (BidirectionBus.switch_to_input_bus countingOutputFake
      ⟨some (.OutputBus 6)⟩ 0).isSome = true ∧
    (BidirectionBus.switch_to_output_bus countingInputFake
      ⟨some (.InputBus 7)⟩ 0).isSome = true :=
  success_path_panic_free countingInputFake countingOutputFake
    (.OutputBus 6) (.InputBus 7) 206 107 0 0 1 1 rfl rfl

/-- Claim C10: the pin-vector length is fixed by the type.  A successful
`read_bus` yields a vector of exactly `w` pin states, and any vector
`write_bus` can receive has exactly `w` pin states; both hold by the type of
`PinVector`, with no runtime check. -/
theorem pin_vector_length_fixed_by_type {T E T2 E2 : Type} {w : Nat}
    (bIn : InputBus T E S w) (x : T) (s : S) (v : PinVector w) (s1 : S)
    (h : bIn.read_bus x s = (.ok v, s1))
    (bOut : OutputBus T2 E2 S w) (pv : PinVector w) :
    v.states.length = w ∧ pv.states.length = w :=
  ⟨v.length_eq, pv.length_eq⟩

/-- Witness for claim C10 at a concrete width-2 fake read and write. -/
theorem pin_vector_length_fixed_by_type_witness :
    (PinVector.mk [PinState.low, PinState.high] rfl).states.length = 2 ∧
    (PinVector.mk [PinState.high, PinState.high] rfl).states.length = 2 :=
  pin_vector_length_fixed_by_type fixedReadFake 0 0
    ⟨[PinState.low, PinState.high], rfl⟩ 0 rfl
    alwaysOkWriteFake ⟨[PinState.high, PinState.high], rfl⟩

end ParallelBusLib
